import Mathlib

/-!
Verification of the GNSVRS audio-visualizer core
(`src/apps/gnsvrs/src/app/components/AudioVisualizer.tsx`).

The component state (React `useState`/`useRef` cells) is embedded as an
explicit record, and each event handler / callback of the source becomes a
pure state-transition function.  Machine numbers (`currentTrackIndex`,
times, offsets) are embedded as `Int` / `Rat`; the browser environment
(whether `createMediaElementSource` succeeds, the random draws of
`Math.random()`, the `requestAnimationFrame` handle, the sampled spectrum)
is passed in as explicit parameters.  Blob-URL revocation
(`URL.revokeObjectURL`) is recorded in an append-only log so that resource
lifetime claims become statements about that log.
-/

namespace AudioVisualizer

/-- A playlist entry, from the `Track` interface of the source
(`id`, `name`, `url`, `file`, `duration`); the `File` handle itself is
opaque and carries no information the component reads besides `name`,
so it is not repeated here. -/
structure Track where
  id : Nat
  name : String
  url : String
  duration : Rat
deriving DecidableEq

/-- Observable state of the `<audio>` element used by the component:
its `src`, `currentTime`, and the `paused` / `ended` flags. -/
structure AudioEl where
  src : String
  currentTime : Rat
  paused : Bool
  ended : Bool
deriving DecidableEq

/-- State of the Web-Audio signal graph: `sourceCreated` is
`isSourceCreatedRef.current`; the two Booleans record whether the
capture→analysis edge and the analysis→destination edge exist
(Web-Audio `connect` between the same two nodes is idempotent, so a
set of edges — here two flags — is the faithful model). -/
structure GraphState where
  sourceCreated : Bool
  sourceToAnalyser : Bool
  analyserToDest : Bool
deriving DecidableEq

/-- The component state: React state cells, refs, the audio element,
the graph, the render-loop handle (`animationIdRef`), the canvas /
background visual state, the pending-load flag (`audio.load()` issued,
`loadeddata` not yet fired), and the log of revoked blob URLs. -/
structure State where
  playlist : List Track
  currentTrackIndex : Int
  loopTrack : Bool
  loopPlaylist : Bool
  vibrationEnabled : Bool
  audio : AudioEl
  graph : GraphState
  animationId : Option Nat
  canvasCleared : Bool
  bgOffset : Rat × Rat
  loading : Bool
  revoked : List String
deriving DecidableEq

/-- `analyser.fftSize = 256`, hence `frequencyBinCount` = 128 bins
(`bufferLengthRef.current`). -/
def bufferLength : Nat := 128

/-- The fixed `maxVibration = 10` of the `animate` callback. -/
def maxVibration : Rat := 10

/-- `stopAnimation`: cancel the pending frame (handle := none), clear the
canvas, and snap the background offset to `translate(0px, 0px)`. -/
def stopAnimation (s : State) : State :=
  { s with animationId := none, canvasCleared := true, bgOffset := (0, 0) }

/-- `dataArray.reduce((acc, val) => acc + val, 0) / bufferLengthRef.current`. -/
def average (data : List Nat) : Rat :=
  (data.map fun x : Nat => (x : Rat)).sum / (bufferLength : Rat)

/-- `(average / 255) * maxVibration` — displacement magnitude of the
background vibration. -/
def intensity (data : List Nat) : Rat :=
  average data / 255 * maxVibration

/-- `(Math.random() - 0.5) * 2 * intensity` with the random draw `r`
passed explicitly. -/
def shake (r inten : Rat) : Rat :=
  (r - 1 / 2) * 2 * inten

/-- One tick of the `animate` callback.  While the element is neither
paused nor ended it re-schedules itself (`animationId := some handle`),
draws the bars (canvas no longer in its cleared state) and applies the
vibration offset (or snaps it to zero when vibration is disabled);
otherwise it calls `stopAnimation`.  `data` is the sampled spectrum,
`rx`, `ry` the two `Math.random()` draws. -/
def animateTick (handle : Nat) (data : List Nat) (rx ry : Rat) (s : State) : State :=
  if s.audio.paused = false ∧ s.audio.ended = false then
    { s with
      animationId := some handle,
      canvasCleared := false,
      bgOffset :=
        if s.vibrationEnabled then (shake rx (intensity data), shake ry (intensity data))
        else (0, 0) }
  else
    stopAnimation s

/-- The body of the 100 ms `setTimeout` in `handlePlay`: start the
animation loop only if no frame handle is active
(`if (!animationIdRef.current) animate()`). -/
def handlePlayScheduled (handle : Nat) (data : List Nat) (rx ry : Rat) (s : State) : State :=
  if s.animationId = none then animateTick handle data rx ry s else s

/-- `audioContext.createMediaElementSource(audio)`: succeeds, or throws
(e.g. the element already has a capture node); whether it succeeds is the
environment parameter `createOk`. -/
def createMediaElementSource (createOk : Bool) : Except String Unit :=
  if createOk then .ok () else .error "InvalidStateError"

/-- `setupAudioSource`: if no source has been created yet and the element
has a non-empty `src`, try to construct the capture node and connect
capture → analysis → destination, marking `isSourceCreatedRef`; on a
construction failure the `catch` block connects the analyser directly to
the destination.  All exceptions are caught, so the result is always
`.ok`. -/
def setupAudioSource (createOk : Bool) (s : State) : Except String State :=
  if s.graph.sourceCreated = false ∧ s.audio.src ≠ "" then
    match createMediaElementSource createOk with
    | .ok _ =>
        .ok { s with graph :=
          { sourceCreated := true, sourceToAnalyser := true, analyserToDest := true } }
    | .error _ =>
        .ok { s with graph := { s.graph with analyserToDest := true } }
  else
    .ok s

/-- JavaScript `String.prototype.startsWith(p)`: `p` is a prefix of the
string (embedded over the character list so it evaluates in the kernel). -/
def jsStartsWith (s p : String) : Bool :=
  p.data.isPrefixOf s.data

/-- `playTrackFromPlaylist(index)`: guarded by
`index >= 0 && index < playlist.length`; on a valid index it selects the
track, stops the animation, pauses and rewinds the element, revokes the
previous `blob:` source, assigns the new track's url and issues
`audio.load()` (the `loadeddata` continuation then attaches the graph and
plays).  Out of range it does nothing. -/
def playTrackFromPlaylist (i : Int) (s : State) : State :=
  if h : 0 ≤ i ∧ i < (s.playlist.length : Int) then
    let track := s.playlist.get ⟨i.toNat, by omega⟩
    let s1 := stopAnimation { s with currentTrackIndex := i }
    let s2 := { s1 with audio := { s1.audio with paused := true, currentTime := 0 } }
    let s3 :=
      if jsStartsWith s2.audio.src "blob:" then
        { s2 with revoked := s2.revoked ++ [s2.audio.src] }
      else s2
    { s3 with audio := { s3.audio with src := track.url }, loading := true }
  else s

/-- JavaScript `Array.prototype.findIndex`: index of the first element
satisfying `p`, or `-1`. -/
def findIndex (p : Track → Bool) : List Track → Int
  | [] => -1
  | t :: ts =>
      if p t then 0
      else
        let r := findIndex p ts
        if r = -1 then -1 else r + 1

/-- `removeFromPlaylist(trackId)`: find the track, revoke its `blob:` url,
filter it out, then re-validate the selection — reset to `-1` (pausing and
stopping the animation) when the removed entry was selected, decrement
when an earlier entry was removed, leave unchanged otherwise. -/
def removeFromPlaylist (trackId : Nat) (s : State) : State :=
  let index := findIndex (fun t => t.id == trackId) s.playlist
  if index = -1 then s
  else
    let revokedNew :=
      match s.playlist.get? index.toNat with
      | some track =>
          if jsStartsWith track.url "blob:" then s.revoked ++ [track.url] else s.revoked
      | none => s.revoked
    let newPlaylist := s.playlist.filter fun t => t.id != trackId
    if s.currentTrackIndex = index then
      { stopAnimation s with
        playlist := newPlaylist,
        revoked := revokedNew,
        audio := { s.audio with paused := true },
        currentTrackIndex := -1 }
    else if s.currentTrackIndex > index then
      { s with playlist := newPlaylist, revoked := revokedNew,
               currentTrackIndex := s.currentTrackIndex - 1 }
    else
      { s with playlist := newPlaylist, revoked := revokedNew }

/-- The action the `handleEnded` handler takes after its initial
`stopAnimation()`: restart the same track, call
`playTrackFromPlaylist i`, or clear the selection. -/
inductive EndedAction where
  | restartTrack
  | play (i : Int)
  | clearSelection
deriving DecidableEq

/-- The branch structure of `handleEnded` in the source:
loop-track (with a selected track) restarts; else loop-playlist (with a
non-empty playlist) advances when `0 ≤ idx < len - 1` and otherwise plays
index 0; else advance when `0 ≤ idx < len - 1` and otherwise clear. -/
def handleEndedAction (loopTrack loopPlaylist : Bool) (idx : Int) (len : Nat) : EndedAction :=
  if loopTrack = true ∧ 0 ≤ idx then .restartTrack
  else if loopPlaylist = true ∧ 0 < len then
    if 0 ≤ idx ∧ idx < (len : Int) - 1 then .play (idx + 1) else .play 0
  else
    if 0 ≤ idx ∧ idx < (len : Int) - 1 then .play (idx + 1) else .clearSelection

/-- The `onEnded` policy exactly as the specification words it:
(1) loop-track and a track selected → restart; (2) else loop-playlist and
non-empty → next index, wrapping to 0 after the last; (3) else if the
current index is not the last → advance to the next track; (4) else clear
the selection. -/
def endedPolicySpec (loopTrack loopPlaylist : Bool) (idx : Int) (len : Nat) : EndedAction :=
  if loopTrack = true ∧ 0 ≤ idx then .restartTrack
  else if loopPlaylist = true ∧ 0 < len then
    .play (if idx = (len : Int) - 1 then 0 else idx + 1)
  else if idx ≠ (len : Int) - 1 then .play (idx + 1)
  else .clearSelection

/-- The `onEnded` policy with step (3) amended to additionally require
that a track is selected (`0 ≤ idx`); steps (1), (2) and (4) as the
specification words them. -/
def endedPolicyAmended (loopTrack loopPlaylist : Bool) (idx : Int) (len : Nat) : EndedAction :=
  if loopTrack = true ∧ 0 ≤ idx then .restartTrack
  else if loopPlaylist = true ∧ 0 < len then
    .play (if idx = (len : Int) - 1 then 0 else idx + 1)
  else if 0 ≤ idx ∧ idx ≠ (len : Int) - 1 then .play (idx + 1)
  else .clearSelection

/-- `loop-track-btn` click handler: `setLoopTrack(!loopTrack);
if (!loopTrack) setLoopPlaylist(false)` on the pair
(loopTrack, loopPlaylist). -/
def toggleLoopTrack (p : Bool × Bool) : Bool × Bool :=
  (!p.1, if !p.1 then false else p.2)

/-- `loop-playlist-btn` click handler: `setLoopPlaylist(!loopPlaylist);
if (!loopPlaylist) setLoopTrack(false)`. -/
def toggleLoopPlaylist (p : Bool × Bool) : Bool × Bool :=
  (if !p.2 then false else p.1, !p.2)

/-- A user operation on the two loop flags. -/
inductive LoopOp where
  | track
  | playlistLoop
deriving DecidableEq

def applyLoopOp : LoopOp → Bool × Bool → Bool × Bool
  | .track, p => toggleLoopTrack p
  | .playlistLoop, p => toggleLoopPlaylist p

/-- Run a sequence of loop-flag toggles. -/
def runLoopOps (ops : List LoopOp) (p : Bool × Bool) : Bool × Bool :=
  ops.foldl (fun q op => applyLoopOp op q) p

/-! Concrete states used as witnesses and counterexamples. -/

def trackA : Track := { id := 1, name := "a.mp3", url := "blob:site/aaaa", duration := 0 }

def trackB : Track := { id := 2, name := "b.mp3", url := "blob:site/bbbb", duration := 0 }

def trackC : Track := { id := 3, name := "c.mp3", url := "blob:site/cccc", duration := 0 }

/-- A state in which track A (index 0) is loaded and playing out of the
two-track playlist [A, B]. -/
def statePlayingA : State :=
  { playlist := [trackA, trackB]
    currentTrackIndex := 0
    loopTrack := false
    loopPlaylist := false
    vibrationEnabled := true
    audio := { src := trackA.url, currentTime := 0, paused := false, ended := false }
    graph := { sourceCreated := true, sourceToAnalyser := true, analyserToDest := true }
    animationId := some 7
    canvasCleared := false
    bgOffset := (0, 0)
    loading := false
    revoked := [] }

/-- A three-track state with track C (index 2) selected. -/
def stateThree : State :=
  { statePlayingA with
    playlist := [trackA, trackB, trackC]
    currentTrackIndex := 2
    audio := { src := trackC.url, currentTime := 0, paused := false, ended := false } }

/-- An idle state whose audio element has a source but whose signal graph
has not been attached yet. -/
def stateUnattached : State :=
  { statePlayingA with
    graph := { sourceCreated := false, sourceToAnalyser := false, analyserToDest := false }
    animationId := none
    audio := { src := trackA.url, currentTime := 0, paused := true, ended := false } }

/-! ## Theorems -/

/-- C1, counterexample: with both loop flags off, no track selected
(index `-1`) and a one-track playlist, the code clears the selection,
while the claim's step (3) ("the current index is not the last", and the
last index is 0 ≠ -1) prescribes advancing to the next track.  So the
claim as stated fails on the code at this input. -/
theorem handleEnded_policy_counterexample :
    handleEndedAction false false (-1) 1 = EndedAction.clearSelection ∧
    endedPolicySpec false false (-1) 1 = EndedAction.play 0 ∧
    handleEndedAction false false (-1) 1 ≠ endedPolicySpec false false (-1) 1 := by
  decide

/-- C1 (amended): with step (3) requiring in addition that a track is
selected, the `handleEnded` handler follows the four-step precedence
exactly, for every pair of loop flags and every reachable selection
(index `-1` or a valid index into the playlist). -/
theorem handleEnded_follows_amended_policy (lt lp : Bool) (idx : Int) (len : Nat)
    (h : idx = -1 ∨ (0 ≤ idx ∧ idx < (len : Int))) :
    handleEndedAction lt lp idx len = endedPolicyAmended lt lp idx len := by
  unfold handleEndedAction endedPolicyAmended
  rcases h with rfl | ⟨h0, h1⟩ <;> cases lt <;> cases lp <;>
    split_ifs <;>
      first
        | rfl
        | (simp only [EndedAction.play.injEq]; omega)
        | (exfalso; omega)

/-- C1 witness: the amended policy theorem applied to a playing middle
track of a three-track playlist with both loops off. -/
theorem handleEnded_follows_amended_policy_witness :
    handleEndedAction false false 1 3 = endedPolicyAmended false false 1 3 :=
  handleEnded_follows_amended_policy false false 1 3 (Or.inr (by decide))

/-- Helper for C4: a single toggle never produces both flags set,
whatever the starting pair. -/
theorem applyLoopOp_not_both (op : LoopOp) (p : Bool × Bool) :
    ¬((applyLoopOp op p).1 = true ∧ (applyLoopOp op p).2 = true) := by
  obtain ⟨a, b⟩ := p
  cases op <;> cases a <;> cases b <;> decide

/-- Helper for C4: the no-both-flags invariant is preserved by any
sequence of toggles. -/
theorem runLoopOps_not_both (ops : List LoopOp) (p : Bool × Bool)
    (hp : ¬(p.1 = true ∧ p.2 = true)) :
    ¬((runLoopOps ops p).1 = true ∧ (runLoopOps ops p).2 = true) := by
  induction ops generalizing p with
  | nil => exact hp
  | cons op ops ih => exact ih (applyLoopOp op p) (applyLoopOp_not_both op p)

/-- C4: starting from both loop flags false, no sequence of
`toggleLoopTrack` / `toggleLoopPlaylist` clicks ever makes loop-track and
loop-playlist simultaneously true — enabling either clears the other. -/
theorem loopFlags_mutually_exclusive (ops : List LoopOp) :
    ¬((runLoopOps ops (false, false)).1 = true ∧
      (runLoopOps ops (false, false)).2 = true) :=
  runLoopOps_not_both ops (false, false) (by decide)

/-- C2, failing run: with playlist `[A, B]` and track A loaded
(`audio.src = A.url`), selecting track B revokes A's blob URL even though
A is still in the playlist (first conjunct and second conjunct), and
subsequently removing A revokes the same URL a second time (third
conjunct) — the resource is released twice, and the first release happens
while the playlist still owns it.  This contradicts the
exactly-once / never-while-owned claim, whose intent §5 of the
specification states explicitly, so the code is the slip. -/
theorem blobUrl_double_release :
    (playTrackFromPlaylist 1 statePlayingA).revoked = [trackA.url] ∧
    trackA.url ∈ ((playTrackFromPlaylist 1 statePlayingA).playlist.map Track.url) ∧
    (removeFromPlaylist trackA.id (playTrackFromPlaylist 1 statePlayingA)).revoked
      = [trackA.url, trackA.url] := by
  decide

/-- C3: for every element with a non-empty source, `setupAudioSource` is
idempotent and never lets an error escape: the first call returns
normally with some state `s1`, a second call on `s1` returns `s1`
unchanged, and if the graph was unattached and construction succeeds the
first call builds and connects the capture → analysis → output chain. -/
theorem setupAudioSource_idempotent (c : Bool) (s : State) (h : s.audio.src ≠ "") :
    ∃ s1, setupAudioSource c s = Except.ok s1 ∧
      setupAudioSource c s1 = Except.ok s1 ∧
      (s.graph.sourceCreated = false → c = true →
        s1.graph.sourceCreated = true ∧ s1.graph.sourceToAnalyser = true ∧
        s1.graph.analyserToDest = true) := by
  by_cases hcr : s.graph.sourceCreated = false
  · cases c
    · refine ⟨{ s with graph := { s.graph with analyserToDest := true } }, ?_, ?_, ?_⟩
      · simp [setupAudioSource, createMediaElementSource, hcr, h]
      · simp [setupAudioSource, createMediaElementSource, hcr, h]
      · intro _ hct
        exact absurd hct (by decide)
    · refine ⟨{ s with graph := ⟨true, true, true⟩ }, ?_, ?_, ?_⟩
      · simp [setupAudioSource, createMediaElementSource, hcr, h]
      · simp [setupAudioSource]
      · intro _ _
        exact ⟨rfl, rfl, rfl⟩
  · refine ⟨s, ?_, ?_, ?_⟩
    · simp [setupAudioSource, hcr]
    · simp [setupAudioSource, hcr]
    · intro h1 _
      exact absurd h1 hcr

/-- C3 witness: the idempotence theorem applied to the unattached idle
state with a loaded source and a succeeding construction. -/
theorem setupAudioSource_idempotent_witness :
    ∃ s1, setupAudioSource true stateUnattached = Except.ok s1 ∧
      setupAudioSource true s1 = Except.ok s1 ∧
      (stateUnattached.graph.sourceCreated = false → true = true →
        s1.graph.sourceCreated = true ∧ s1.graph.sourceToAnalyser = true ∧
        s1.graph.analyserToDest = true) :=
  setupAudioSource_idempotent true stateUnattached (by decide)

/-- C9: when the capture-node construction fails, `setupAudioSource`
returns normally (no error escapes the caller) and the analysis node is
connected directly to the output device, everything else unchanged. -/
theorem setupAudioSource_fallback (s : State)
    (h1 : s.graph.sourceCreated = false) (h2 : s.audio.src ≠ "") :
    setupAudioSource false s =
      Except.ok { s with graph := { s.graph with analyserToDest := true } } := by
  simp [setupAudioSource, createMediaElementSource, h1, h2]

/-- C9 witness: the fallback theorem evaluated on the unattached idle
state. -/
theorem setupAudioSource_fallback_witness :
    setupAudioSource false stateUnattached =
      Except.ok { stateUnattached with graph :=
        { stateUnattached.graph with analyserToDest := true } } :=
  setupAudioSource_fallback stateUnattached (by decide) (by decide)

/-- C10: after a failed construction the element is not marked attached
(`isSourceCreatedRef` stays false), so a subsequent call re-attempts the
full capture-node construction — here one whose construction succeeds,
producing the fully connected chain — rather than being a no-op. -/
theorem setupAudioSource_retry_after_failure (s : State)
    (h1 : s.graph.sourceCreated = false) (h2 : s.audio.src ≠ "") :
    ∃ s1, setupAudioSource false s = Except.ok s1 ∧
      s1.graph.sourceCreated = false ∧
      ∃ s2, setupAudioSource true s1 = Except.ok s2 ∧
        s2.graph.sourceCreated = true ∧ s2.graph.sourceToAnalyser = true ∧
        s2.graph.analyserToDest = true := by
  refine ⟨{ s with graph := { s.graph with analyserToDest := true } }, ?_, h1,
    { s with graph := ⟨true, true, true⟩ }, ?_, rfl, rfl, rfl⟩
  · simp [setupAudioSource, createMediaElementSource, h1, h2]
  · simp [setupAudioSource, createMediaElementSource, h1, h2]

/-- C10 witness: the retry theorem evaluated on the unattached idle
state. -/
theorem setupAudioSource_retry_after_failure_witness :
    ∃ s1, setupAudioSource false stateUnattached = Except.ok s1 ∧
      s1.graph.sourceCreated = false ∧
      ∃ s2, setupAudioSource true s1 = Except.ok s2 ∧
        s2.graph.sourceCreated = true ∧ s2.graph.sourceToAnalyser = true ∧
        s2.graph.analyserToDest = true :=
  setupAudioSource_retry_after_failure stateUnattached (by decide) (by decide)

/-- C4 witness: the mutual-exclusion theorem evaluated on the concrete
click sequence loop-track, then loop-playlist, then loop-track again. -/
theorem loopFlags_mutually_exclusive_witness :
    ¬((runLoopOps [LoopOp.track, LoopOp.playlistLoop, LoopOp.track] (false, false)).1 = true ∧
      (runLoopOps [LoopOp.track, LoopOp.playlistLoop, LoopOp.track] (false, false)).2 = true) :=
  loopFlags_mutually_exclusive [LoopOp.track, LoopOp.playlistLoop, LoopOp.track]

/-- Helper for C6: the spectrum average is non-negative. -/
theorem average_nonneg (data : List Nat) : 0 ≤ average data := by
  unfold average
  apply div_nonneg _ (by norm_num [bufferLength])
  apply List.sum_nonneg
  intro x hx
  rw [List.mem_map] at hx
  obtain ⟨a, _, rfl⟩ := hx
  exact Nat.cast_nonneg a

/-- Helper for C6: with 128 byte magnitudes the average is at most 255. -/
theorem average_le_255 (data : List Nat) (hlen : data.length = bufferLength)
    (hdata : ∀ x ∈ data, x ≤ 255) : average data ≤ 255 := by
  unfold average
  rw [div_le_iff₀ (by norm_num [bufferLength])]
  have hb : ∀ x ∈ (data.map fun x : Nat => (x : Rat)), x ≤ (255 : Rat) := by
    intro x hx
    rw [List.mem_map] at hx
    obtain ⟨a, ha, rfl⟩ := hx
    exact_mod_cast hdata a ha
  have h1 := List.sum_le_card_nsmul (data.map fun x : Nat => (x : Rat)) (255 : Rat) hb
  rw [List.length_map, hlen, nsmul_eq_mul] at h1
  calc (data.map fun x : Nat => (x : Rat)).sum ≤ (bufferLength : Rat) * 255 := h1
    _ = 255 * (bufferLength : Rat) := by ring

/-- Helper for C6: the displacement magnitude is non-negative. -/
theorem intensity_nonneg (data : List Nat) : 0 ≤ intensity data := by
  unfold intensity maxVibration
  have h := average_nonneg data
  positivity

/-- Helper for C6: the displacement magnitude never exceeds the fixed
maximum of 10. -/
theorem intensity_le_max (data : List Nat) (hlen : data.length = bufferLength)
    (hdata : ∀ x ∈ data, x ≤ 255) : intensity data ≤ maxVibration := by
  unfold intensity maxVibration
  rw [div_mul_eq_mul_div, div_le_iff₀ (by norm_num)]
  have h := average_le_255 data hlen hdata
  linarith

/-- Helper for C6: a jitter draw in [0,1] keeps the shake within
± the displacement magnitude. -/
theorem shake_abs_le (r inten : Rat) (h0 : 0 ≤ r) (h1 : r ≤ 1) (hI : 0 ≤ inten) :
    |shake r inten| ≤ inten := by
  unfold shake
  rw [abs_mul, abs_mul]
  have h2 : |r - 1 / 2| ≤ 1 / 2 := abs_le.mpr (by constructor <;> linarith)
  have h3 : |(2 : Rat)| = 2 := by norm_num
  calc |r - 1 / 2| * |(2 : Rat)| * |inten| ≤ 1 / 2 * 2 * inten := by
        rw [h3, abs_of_nonneg hI]
        apply mul_le_mul_of_nonneg_right _ hI
        exact mul_le_mul_of_nonneg_right h2 (by norm_num)
    _ = inten := by ring

/-- C6: for any sampled spectrum of 128 byte magnitudes and any random
draws in [0,1], the background offset produced by an `animate` tick has
each component bounded in magnitude by the displacement
`(average / 255) * 10`, which itself never exceeds the fixed maximum 10;
and whenever vibration is disabled the offset is exactly (0, 0). -/
theorem vibration_bounded (handle : Nat) (data : List Nat) (rx ry : Rat) (s : State)
    (hlen : data.length = bufferLength) (hdata : ∀ x ∈ data, x ≤ 255)
    (hrx : 0 ≤ rx ∧ rx ≤ 1) (hry : 0 ≤ ry ∧ ry ≤ 1) :
    |((animateTick handle data rx ry s).bgOffset).1| ≤ intensity data ∧
    |((animateTick handle data rx ry s).bgOffset).2| ≤ intensity data ∧
    intensity data ≤ maxVibration ∧
    (s.vibrationEnabled = false → (animateTick handle data rx ry s).bgOffset = (0, 0)) := by
  have hI := intensity_nonneg data
  have hmax := intensity_le_max data hlen hdata
  unfold animateTick
  by_cases hp : s.audio.paused = false ∧ s.audio.ended = false
  · rw [if_pos hp]
    by_cases hv : s.vibrationEnabled = true
    · rw [if_pos hv]
      exact ⟨shake_abs_le rx _ hrx.1 hrx.2 hI, shake_abs_le ry _ hry.1 hry.2 hI, hmax,
        fun hfalse => absurd (hv.symm.trans hfalse) (by decide)⟩
    · rw [if_neg hv]
      exact ⟨by simpa using hI, by simpa using hI, hmax, fun _ => rfl⟩
  · rw [if_neg hp]
    exact ⟨by simpa [stopAnimation] using hI, by simpa [stopAnimation] using hI, hmax,
      fun _ => rfl⟩

/-- C6 witness: the bound theorem evaluated on a flat spectrum of 200
with draws 1/3 and 1. -/
theorem vibration_bounded_witness :
    |((animateTick 0 (List.replicate 128 200) (1 / 3) 1 statePlayingA).bgOffset).1|
        ≤ intensity (List.replicate 128 200) ∧
    |((animateTick 0 (List.replicate 128 200) (1 / 3) 1 statePlayingA).bgOffset).2|
        ≤ intensity (List.replicate 128 200) ∧
    intensity (List.replicate 128 200) ≤ maxVibration ∧
    (statePlayingA.vibrationEnabled = false →
      (animateTick 0 (List.replicate 128 200) (1 / 3) 1 statePlayingA).bgOffset = (0, 0)) :=
  vibration_bounded 0 (List.replicate 128 200) (1 / 3) 1 statePlayingA
    (by simp [bufferLength]) (by simp [List.forall_mem_replicate])
    (by norm_num) (by norm_num)

/-- C7: `playTrackFromPlaylist i` with a valid index selects exactly
track `P[i]` — the selection becomes `i` and the element starts loading
that track's url — while any out-of-range index is a silent no-op
(the function is total, so nothing is thrown). -/
theorem playTrackFromPlaylist_spec (s : State) (i : Int) :
    (∀ h : 0 ≤ i ∧ i < (s.playlist.length : Int),
      (playTrackFromPlaylist i s).currentTrackIndex = i ∧
      (playTrackFromPlaylist i s).loading = true ∧
      (playTrackFromPlaylist i s).audio.src =
        (s.playlist.get ⟨i.toNat, by omega⟩).url) ∧
    (¬(0 ≤ i ∧ i < (s.playlist.length : Int)) → playTrackFromPlaylist i s = s) := by
  constructor
  · intro h
    by_cases hb : jsStartsWith s.audio.src "blob:"
    · simp [playTrackFromPlaylist, dif_pos h, stopAnimation, hb]
    · simp [playTrackFromPlaylist, dif_pos h, stopAnimation, hb]
  · intro h
    simp [playTrackFromPlaylist, dif_neg h]

/-- C7 witness: selecting index 1 of the two-track playlist selects
track B, and index 5 is a no-op. -/
theorem playTrackFromPlaylist_spec_witness :
    ((playTrackFromPlaylist 1 statePlayingA).currentTrackIndex = 1 ∧
     (playTrackFromPlaylist 1 statePlayingA).loading = true ∧
     (playTrackFromPlaylist 1 statePlayingA).audio.src =
       (statePlayingA.playlist.get ⟨(1 : Int).toNat, by decide⟩).url) ∧
    playTrackFromPlaylist 5 statePlayingA = statePlayingA :=
  ⟨(playTrackFromPlaylist_spec statePlayingA 1).1 (by decide),
   (playTrackFromPlaylist_spec statePlayingA 5).2 (by decide)⟩

/-- C8: starting the render loop while a frame handle is active is a
no-op (the `!animationIdRef.current` check precedes any scheduling), and
`stopAnimation` is idempotent — it cancels the pending handle, clears the
canvas and zeroes the background offset. -/
theorem renderLoop_single_handle (handle : Nat) (data : List Nat) (rx ry : Rat) (s : State) :
    (s.animationId ≠ none → handlePlayScheduled handle data rx ry s = s) ∧
    stopAnimation (stopAnimation s) = stopAnimation s ∧
    (stopAnimation s).animationId = none ∧
    (stopAnimation s).canvasCleared = true ∧
    (stopAnimation s).bgOffset = (0, 0) := by
  refine ⟨fun hne => ?_, rfl, rfl, rfl, rfl⟩
  simp [handlePlayScheduled, hne]

/-- C8 witness: the handle theorem evaluated on the playing state, whose
frame handle is active. -/
theorem renderLoop_single_handle_witness :
    handlePlayScheduled 0 [] 0 0 statePlayingA = statePlayingA ∧
    stopAnimation (stopAnimation statePlayingA) = stopAnimation statePlayingA :=
  ⟨(renderLoop_single_handle 0 [] 0 0 statePlayingA).1 (by decide),
   (renderLoop_single_handle 0 [] 0 0 statePlayingA).2.1⟩

/-- Helper for C5: JavaScript `findIndex` returns at least -1. -/
theorem findIndex_ge (p : Track → Bool) (l : List Track) : -1 ≤ findIndex p l := by
  induction l with
  | nil => simp [findIndex]
  | cons t ts ih =>
    simp only [findIndex]
    by_cases hp : p t
    · rw [if_pos hp]; omega
    · rw [if_neg hp]
      by_cases hr : findIndex p ts = -1
      · rw [if_pos hr]
      · rw [if_neg hr]; omega

/-- Helper for C5: `findIndex` returns an index below the length. -/
theorem findIndex_lt_length (p : Track → Bool) (l : List Track) :
    findIndex p l < (l.length : Int) := by
  induction l with
  | nil => simp [findIndex]
  | cons t ts ih =>
    simp only [findIndex, List.length_cons]
    by_cases hp : p t
    · rw [if_pos hp]; omega
    · rw [if_neg hp]
      by_cases hr : findIndex p ts = -1
      · rw [if_pos hr]; omega
      · rw [if_neg hr]; push_cast; omega

/-- Helper for C5: with pairwise-distinct track ids, filtering out the
track found at index `i` removes exactly the entry at `i`. -/
theorem findIndex_filter_remove (tid : Nat) (l : List Track)
    (hnd : (l.map Track.id).Nodup) (i : Int)
    (hi : findIndex (fun t => t.id == tid) l = i) (h0 : 0 ≤ i) :
    l.filter (fun t => t.id != tid) = l.take i.toNat ++ l.drop (i.toNat + 1) := by
  induction l generalizing i with
  | nil => simp [findIndex] at hi; omega
  | cons t ts ih =>
    simp only [findIndex] at hi
    by_cases hp : t.id == tid
    · rw [if_pos hp] at hi
      have hi0 : i.toNat = 0 := by omega
      rw [hi0]
      simp only [List.take_zero, List.nil_append, List.drop_succ_cons, List.drop_zero]
      have htid : t.id = tid := by simpa using hp
      rw [List.filter_cons]
      have hneg : (t.id != tid) = false := by simp [htid]
      rw [hneg]
      simp only [Bool.false_eq_true, if_false]
      apply List.filter_eq_self.mpr
      intro u hu
      simp only [List.map_cons, List.nodup_cons] at hnd
      have hmem : u.id ∈ ts.map Track.id := List.mem_map_of_mem Track.id hu
      have hne : u.id ≠ tid := by
        intro he
        apply hnd.1
        rw [htid, ← he]
        exact hmem
      simpa using hne
    · rw [if_neg hp] at hi
      by_cases hr : findIndex (fun t => t.id == tid) ts = -1
      · rw [if_pos hr] at hi; omega
      · rw [if_neg hr] at hi
        have hr0 : 0 ≤ findIndex (fun t => t.id == tid) ts := by
          have := findIndex_ge (fun t => t.id == tid) ts; omega
        simp only [List.map_cons, List.nodup_cons] at hnd
        have heq := ih hnd.2 (findIndex (fun t => t.id == tid) ts) rfl hr0
        have hto : i.toNat = (findIndex (fun t => t.id == tid) ts).toNat + 1 := by omega
        rw [hto]
        rw [List.filter_cons]
        have hpos : (t.id != tid) = true := by simpa using hp
        rw [hpos]
        simp only [if_true]
        rw [heq]
        rfl

/-- C5: `removeFromPlaylist` re-validates the selection.  With distinct
track ids and a selection that is `-1` or in range, after any removal the
selection is again `-1` or a valid index of the new playlist; removing
the currently-selected track resets the selection to `-1` with the frame
handle cancelled, the canvas cleared and the background offset zeroed;
and removing an entry strictly earlier than the selection decrements the
selection so that it still designates the same track. -/
theorem removeFromPlaylist_revalidates (s : State) (tid : Nat)
    (hnd : (s.playlist.map Track.id).Nodup)
    (hsel : s.currentTrackIndex = -1 ∨
      (0 ≤ s.currentTrackIndex ∧ s.currentTrackIndex < (s.playlist.length : Int))) :
    ((removeFromPlaylist tid s).currentTrackIndex = -1 ∨
      (0 ≤ (removeFromPlaylist tid s).currentTrackIndex ∧
       (removeFromPlaylist tid s).currentTrackIndex <
         ((removeFromPlaylist tid s).playlist.length : Int))) ∧
    (findIndex (fun t => t.id == tid) s.playlist = s.currentTrackIndex →
      0 ≤ s.currentTrackIndex →
      (removeFromPlaylist tid s).currentTrackIndex = -1 ∧
      (removeFromPlaylist tid s).animationId = none ∧
      (removeFromPlaylist tid s).canvasCleared = true ∧
      (removeFromPlaylist tid s).bgOffset = (0, 0)) ∧
    (0 ≤ findIndex (fun t => t.id == tid) s.playlist →
      findIndex (fun t => t.id == tid) s.playlist < s.currentTrackIndex →
      (removeFromPlaylist tid s).currentTrackIndex = s.currentTrackIndex - 1 ∧
      (removeFromPlaylist tid s).playlist.get?
          ((removeFromPlaylist tid s).currentTrackIndex).toNat
        = s.playlist.get? s.currentTrackIndex.toNat) := by
  by_cases h1 : findIndex (fun t => t.id == tid) s.playlist = -1
  · have hR : removeFromPlaylist tid s = s := by
      simp only [removeFromPlaylist]
      rw [if_pos h1]
    rw [hR]
    refine ⟨hsel, fun h2 h3 => absurd h3 (by omega), fun h2 h3 => absurd h2 (by omega)⟩
  · have h0 : 0 ≤ findIndex (fun t => t.id == tid) s.playlist := by
      have := findIndex_ge (fun t => t.id == tid) s.playlist; omega
    have hlt := findIndex_lt_length (fun t => t.id == tid) s.playlist
    have hnat : (findIndex (fun t => t.id == tid) s.playlist).toNat < s.playlist.length := by
      omega
    have heq := findIndex_filter_remove tid s.playlist hnd _ rfl h0
    have hlenf : (s.playlist.filter fun t => t.id != tid).length = s.playlist.length - 1 := by
      rw [heq, List.length_append, List.length_take_of_le (by omega), List.length_drop]
      omega
    simp only [removeFromPlaylist]
    rw [if_neg h1]
    by_cases h2 : s.currentTrackIndex = findIndex (fun t => t.id == tid) s.playlist
    · rw [if_pos h2]
      exact ⟨Or.inl rfl, fun _ _ => ⟨rfl, rfl, rfl, rfl⟩,
        fun _ hlt2 => absurd hlt2 (by omega)⟩
    · rw [if_neg h2]
      by_cases h3 : s.currentTrackIndex > findIndex (fun t => t.id == tid) s.playlist
      · rw [if_pos h3]
        have hcle : s.currentTrackIndex < (s.playlist.length : Int) := by
          rcases hsel with h | h
          · omega
          · exact h.2
        refine ⟨Or.inr ⟨by dsimp only; omega, ?_⟩,
          fun hp2 _ => absurd hp2.symm h2, fun _ _ => ⟨rfl, ?_⟩⟩
        · dsimp only
          rw [hlenf]
          omega
        · dsimp only
          rw [heq]
          have hlent : (s.playlist.take
              (findIndex (fun t => t.id == tid) s.playlist).toNat).length =
              (findIndex (fun t => t.id == tid) s.playlist).toNat :=
            List.length_take_of_le (by omega)
          rw [List.get?_append_right (by rw [hlent]; omega)]
          rw [hlent, List.get?_drop]
          congr 1
          omega
      · rw [if_neg h3]
        refine ⟨?_, fun hp2 _ => absurd hp2.symm h2, fun _ hlt2 => absurd hlt2 h3⟩
        rcases hsel with hm1 | hv
        · exact Or.inl hm1
        · refine Or.inr ⟨hv.1, ?_⟩
          dsimp only
          rw [hlenf]
          omega

/-- C5 witness: removing track A (index 0) of the three-track playlist
while track C (index 2) is selected keeps the selection valid, and the
same track C stays selected at index 1. -/
theorem removeFromPlaylist_revalidates_witness :
    ((removeFromPlaylist 1 stateThree).currentTrackIndex = -1 ∨
      (0 ≤ (removeFromPlaylist 1 stateThree).currentTrackIndex ∧
       (removeFromPlaylist 1 stateThree).currentTrackIndex <
         ((removeFromPlaylist 1 stateThree).playlist.length : Int))) ∧
    (findIndex (fun t => t.id == 1) stateThree.playlist = stateThree.currentTrackIndex →
      0 ≤ stateThree.currentTrackIndex →
      (removeFromPlaylist 1 stateThree).currentTrackIndex = -1 ∧
      (removeFromPlaylist 1 stateThree).animationId = none ∧
      (removeFromPlaylist 1 stateThree).canvasCleared = true ∧
      (removeFromPlaylist 1 stateThree).bgOffset = (0, 0)) ∧
    (0 ≤ findIndex (fun t => t.id == 1) stateThree.playlist →
      findIndex (fun t => t.id == 1) stateThree.playlist < stateThree.currentTrackIndex →
      (removeFromPlaylist 1 stateThree).currentTrackIndex = stateThree.currentTrackIndex - 1 ∧
      (removeFromPlaylist 1 stateThree).playlist.get?
          ((removeFromPlaylist 1 stateThree).currentTrackIndex).toNat
        = stateThree.playlist.get? stateThree.currentTrackIndex.toNat) :=
  removeFromPlaylist_revalidates stateThree 1 (by decide) (by decide)

end AudioVisualizer
